import Mathlib

/-!
# Verification of the movie catalog-and-favorites backend

Shallow embedding of the data model and operations of the FastAPI/SQLModel
backend (users, movies, favorites): the Pydantic schemas (`app/schemas.py`),
the SQLModel tables (`app/models.py`), the validation helpers (`utils.py`)
and the router operations (`app/routers/usuarios.py`, `peliculas.py`,
`favoritos.py`).  Database state is modelled as explicit lists of rows,
SQL queries as list operations, and fallible endpoints as `Except` values.
HTTP plumbing, sessions and the external TMDB client are outside the scope
of the embedded operations.
-/

namespace MovieApi

/-- Error taxonomy of the API (spec §7).  Each constructor carries the
human-readable detail message raised by the code.  `conflict` stands for a
uniqueness violation (the code raises HTTP 400 at those sites), `notFound`
for HTTP 404, `validation` for a Pydantic/Query validation rejection
(HTTP 422). -/
inductive ApiError where
  | notFound (detail : String)
  | conflict (detail : String)
  | validation (detail : String)
  | unauthorized (detail : String)
deriving Repr, DecidableEq

/-! ## Pagination (`PaginatedResponse`, `app/schemas.py`)

The Pydantic field declarations restrict `total_records` to `ge=0`,
`current_pg` to `ge=1` and `limit` to `1..100` before the model validator
`calculate_pagination_info` runs; we model the already-coerced numeric
fields as `Nat` and re-check the validator bounds in `from_query`. -/

/-- One paginated response, generic over the item type, mirroring the
fields of `PaginatedResponse` in `app/schemas.py`.  `Option` fields model
the nullable `has_next`/`has_prev`/`next_page`/`prev_page`. -/
structure PaginatedResponse (α : Type) where
  items : List α
  total_records : Nat
  current_pg : Nat
  limit : Nat
  pages : Nat
  has_next : Option Bool
  has_prev : Option Bool
  next_page : Option Nat
  prev_page : Option Nat
deriving Repr, DecidableEq

/-- Total page count as computed at the top of
`PaginatedResponse.calculate_pagination_info`:
1 when there are no records, else `(total + limit - 1) // limit`. -/
def pagesOf (total_records limit : Nat) : Nat :=
  if total_records = 0 then 1 else (total_records + limit - 1) / limit

/-- The `@model_validator(mode='after') calculate_pagination_info` of
`PaginatedResponse`: recomputes `pages`, rejects `current_pg > pages`,
then fills the navigation fields. -/
def calculate_pagination_info {α : Type} (r : PaginatedResponse α) :
    Except String (PaginatedResponse α) :=
  let pages := pagesOf r.total_records r.limit
  if r.current_pg > pages then
    .error ("La página " ++ toString r.current_pg ++ " no existe. Máximo: " ++ toString pages)
  else
    .ok { r with
      pages := pages
      has_prev := some (decide (r.current_pg > 1))
      has_next := some (decide (r.current_pg < pages))
      prev_page := if r.current_pg > 1 then some (r.current_pg - 1) else none
      next_page := if r.current_pg < pages then some (r.current_pg + 1) else none }

/-- `PaginatedResponse.from_query`: builds the instance (with placeholder
`pages := 1` and `none` navigation fields, as in the code) and runs the
field validators (`validate_current_pg`, `validate_limit`) followed by the
model validator. -/
def from_query {α : Type} (items : List α) (total_records current_pg limit : Nat) :
    Except String (PaginatedResponse α) :=
  if current_pg < 1 then .error "La página debe ser mayor a 0"
  else if limit < 1 then .error "El tamaño debe ser mayor a 0"
  else if limit > 100 then .error "El tamaño no puede ser mayor a 100"
  else calculate_pagination_info
    { items := items, total_records := total_records, current_pg := current_pg,
      limit := limit, pages := 1, has_next := none, has_prev := none,
      next_page := none, prev_page := none }

/-- The integer formula `(t + l - 1) / l` used by the code is the ceiling
of `t / l` for `t ≠ 0`, `l ≥ 1`. -/
lemma pagesOf_formula_eq_ceil (t l : Nat) (_ht : t ≠ 0) (hl : 1 ≤ l) :
    (t + l - 1) / l = ⌈(t : ℚ) / (l : ℚ)⌉₊ := by
  have hl0 : 0 < l := hl
  have hlq : (0 : ℚ) < (l : ℚ) := by exact_mod_cast hl0
  apply le_antisymm
  · rw [Nat.div_le_iff_le_mul_add_pred hl0]
    have h1 : (t : ℚ) / l ≤ (⌈(t : ℚ) / (l : ℚ)⌉₊ : ℚ) := Nat.le_ceil _
    have h2 : (t : ℚ) ≤ (⌈(t : ℚ) / (l : ℚ)⌉₊ : ℚ) * l := by
      rwa [div_le_iff₀ hlq] at h1
    have h3 : t ≤ ⌈(t : ℚ) / (l : ℚ)⌉₊ * l := by exact_mod_cast h2
    have h4 : t + l - 1 = t + (l - 1) := by omega
    rw [h4, Nat.mul_comm]
    exact Nat.add_le_add_right h3 _
  · rw [Nat.ceil_le, div_le_iff₀ hlq]
    have h5 : t + l - 1 < (t + l - 1) / l * l + l := by
      have hq := Nat.lt_succ_self ((t + l - 1) / l)
      rw [Nat.div_lt_iff_lt_mul hl0, Nat.succ_mul] at hq
      exact hq
    have h6 : t ≤ (t + l - 1) / l * l := by omega
    calc (t : ℚ) ≤ (((t + l - 1) / l * l : Nat) : ℚ) := by exact_mod_cast h6
    _ = (((t + l - 1) / l : Nat) : ℚ) * l := by push_cast; ring

/-- `pagesOf` equals the spec's `ceil(total_records / limit)` (or 1 when
the total is zero). -/
lemma pagesOf_eq_ceil (t l : Nat) (hl : 1 ≤ l) :
    pagesOf t l = if t = 0 then 1 else ⌈(t : ℚ) / (l : ℚ)⌉₊ := by
  unfold pagesOf
  by_cases ht : t = 0
  · simp [ht]
  · simp only [ht, if_false]
    exact pagesOf_formula_eq_ceil t l ht hl

/-- The model validator leaves `items`, `total_records`, `current_pg` and
`limit` untouched on success. -/
lemma calculate_pagination_info_preserves {α : Type} (r out : PaginatedResponse α)
    (h : calculate_pagination_info r = .ok out) :
    out.items = r.items ∧ out.total_records = r.total_records ∧
      out.current_pg = r.current_pg ∧ out.limit = r.limit := by
  unfold calculate_pagination_info at h
  by_cases hc : r.current_pg > pagesOf r.total_records r.limit
  · simp [hc] at h
  · simp only [hc, if_false] at h
    cases h
    exact ⟨rfl, rfl, rfl, rfl⟩

/-- C1: for every `total_records ≥ 0`, `current_page ≥ 1`, `limit ∈ [1,100]`
with `current_page ≤ pages`, `calculate_pagination_info` succeeds and
produces `pages = 1` when the total is 0 and `ceil(total/limit)` otherwise,
`has_prev = (current_pg > 1)`, `has_next = (current_pg < pages)`,
`prev_page = current_pg - 1` exactly when `has_prev` holds and absent
otherwise, and symmetrically for `next_page`. -/
theorem calculate_pagination_info_correct {α : Type} (r : PaginatedResponse α)
    (hpg : 1 ≤ r.current_pg) (hl : 1 ≤ r.limit) (hl100 : r.limit ≤ 100)
    (hrange : r.current_pg ≤ pagesOf r.total_records r.limit) :
    ∃ out, calculate_pagination_info r = .ok out
      ∧ out.pages = (if r.total_records = 0 then 1 else ⌈(r.total_records : ℚ) / (r.limit : ℚ)⌉₊)
      ∧ out.has_prev = some (decide (r.current_pg > 1))
      ∧ out.has_next = some (decide (r.current_pg < out.pages))
      ∧ out.prev_page = (if r.current_pg > 1 then some (r.current_pg - 1) else none)
      ∧ out.next_page = (if r.current_pg < out.pages then some (r.current_pg + 1) else none) := by
  have hc : ¬ r.current_pg > pagesOf r.total_records r.limit := by omega
  refine ⟨{ r with
      pages := pagesOf r.total_records r.limit
      has_prev := some (decide (r.current_pg > 1))
      has_next := some (decide (r.current_pg < pagesOf r.total_records r.limit))
      prev_page := if r.current_pg > 1 then some (r.current_pg - 1) else none
      next_page := if r.current_pg < pagesOf r.total_records r.limit then
        some (r.current_pg + 1) else none }, ?_, ?_, ?_, ?_, ?_, ?_⟩
  · unfold calculate_pagination_info
    simp only [hc, if_false]
  · simpa using (pagesOf_eq_ceil r.total_records r.limit hl)
  · rfl
  · rfl
  · rfl
  · rfl

/-- Closed witness for `calculate_pagination_info_correct` at
`total_records = 25`, `current_pg = 2`, `limit = 10`. -/
theorem calculate_pagination_info_correct_witness :
    (1 ≤ (2 : Nat) ∧ 1 ≤ (10 : Nat) ∧ (10 : Nat) ≤ 100 ∧ (2 : Nat) ≤ pagesOf 25 10) ∧
    (∃ out, calculate_pagination_info
        ({ items := ([] : List Nat), total_records := 25, current_pg := 2, limit := 10,
           pages := 1, has_next := none, has_prev := none,
           next_page := none, prev_page := none } : PaginatedResponse Nat) = .ok out
      ∧ out.pages = (if (25 : Nat) = 0 then 1 else ⌈(25 : ℚ) / (10 : ℚ)⌉₊)
      ∧ out.has_prev = some (decide ((2 : Nat) > 1))
      ∧ out.has_next = some (decide ((2 : Nat) < out.pages))
      ∧ out.prev_page = (if (2 : Nat) > 1 then some ((2 : Nat) - 1) else none)
      ∧ out.next_page = (if (2 : Nat) < out.pages then some ((2 : Nat) + 1) else none)) :=
  ⟨⟨by decide, by decide, by decide, by decide⟩,
   calculate_pagination_info_correct _ (by decide) (by decide) (by decide) (by decide)⟩

/-- C2: within the field-validated domain, the model validator fails
exactly when `current_pg` exceeds the computed page count, and on success
the inputs (`items`, `total_records`, `current_pg`, `limit`) are returned
unaltered. -/
theorem calculate_pagination_info_error_iff {α : Type} (r : PaginatedResponse α)
    (hpg : 1 ≤ r.current_pg) (hl : 1 ≤ r.limit) (hl100 : r.limit ≤ 100) :
    ((∃ e, calculate_pagination_info r = .error e) ↔
        pagesOf r.total_records r.limit < r.current_pg)
    ∧ (∀ out, calculate_pagination_info r = .ok out →
        out.items = r.items ∧ out.total_records = r.total_records ∧
          out.current_pg = r.current_pg ∧ out.limit = r.limit) := by
  constructor
  · constructor
    · rintro ⟨e, he⟩
      by_contra hc
      have hc2 : ¬ r.current_pg > pagesOf r.total_records r.limit := by omega
      unfold calculate_pagination_info at he
      simp [hc2] at he
    · intro hlt
      have hc2 : r.current_pg > pagesOf r.total_records r.limit := hlt
      refine ⟨"La página " ++ toString r.current_pg ++ " no existe. Máximo: " ++
        toString (pagesOf r.total_records r.limit), ?_⟩
      simp [calculate_pagination_info, hc2]
  · intro out h
    exact calculate_pagination_info_preserves r out h

/-- Closed witness for `calculate_pagination_info_error_iff`: at
`total_records = 5`, `current_pg = 3`, `limit = 10` the computed page
count is 1 and construction fails. -/
theorem calculate_pagination_info_error_iff_witness :
    (1 ≤ (3 : Nat) ∧ 1 ≤ (10 : Nat) ∧ (10 : Nat) ≤ 100) ∧
    (((∃ e, calculate_pagination_info
          ({ items := ([] : List Nat), total_records := 5, current_pg := 3, limit := 10,
             pages := 1, has_next := none, has_prev := none,
             next_page := none, prev_page := none } : PaginatedResponse Nat) = .error e) ↔
        pagesOf 5 10 < 3)
      ∧ (∀ out, calculate_pagination_info
            ({ items := ([] : List Nat), total_records := 5, current_pg := 3, limit := 10,
               pages := 1, has_next := none, has_prev := none,
               next_page := none, prev_page := none } : PaginatedResponse Nat) = .ok out →
          out.items = [] ∧ out.total_records = 5 ∧ out.current_pg = 3 ∧ out.limit = 10)) :=
  ⟨⟨by decide, by decide, by decide⟩,
   calculate_pagination_info_error_iff _ (by decide) (by decide) (by decide)⟩

/-! ## Entity model (`app/models.py`)

Rows of the three SQLModel tables.  Timestamps are abstract `Nat` ticks;
the poster blob is a byte list.  The database is the triple of row lists
in insertion order (SQLite autoincrement ids; `SELECT` without `ORDER BY`
is modelled as returning the stored order). -/

/-- A `usuario` row. -/
structure Usuario where
  id : Int
  nombre : String
  correo : String
  fecha_registro : Nat
deriving Repr, DecidableEq

/-- A `pelicula` row. -/
structure Pelicula where
  id : Int
  titulo : String
  director : String
  genero : String
  duracion : Int
  «año» : Int
  clasificacion : String
  sinopsis : Option String
  fecha_creacion : Nat
  image_file : Option (List Nat)
deriving Repr, DecidableEq

/-- A `favorito` row: the (user, movie) marking with its timestamp.  The
model declares both foreign keys with `ondelete="CASCADE"`. -/
structure Favorito where
  id : Int
  id_usuario : Int
  id_pelicula : Int
  fecha_marcado : Nat
deriving Repr, DecidableEq

/-- The whole entity store. -/
structure DB where
  usuarios : List Usuario
  peliculas : List Pelicula
  favoritos : List Favorito
deriving Repr, DecidableEq

/-- `session.get(Usuario, uid)`: primary-key lookup. -/
def getUsuario (db : DB) (uid : Int) : Option Usuario :=
  db.usuarios.find? (fun u => u.id == uid)

/-- `session.get(Pelicula, pid)`: primary-key lookup. -/
def getPelicula (db : DB) (pid : Int) : Option Pelicula :=
  db.peliculas.find? (fun p => p.id == pid)

/-! ## Year validation (`utils.py`, `app/schemas.py`) — claim C3

`obtener_año_actual` reads the wall clock (`date.today().year`); it is the
explicit `año_actual` parameter here. -/

/-- `utils.validar_año`: `1900 <= año <= año_actual`.  The binder
`anio_actual` stands for the wall-clock year `obtener_año_actual()`. -/
def «validar_año» (anio_actual anio : Int) : Bool :=
  decide (1900 ≤ anio ∧ anio ≤ anio_actual)

/-- The Pydantic field constraint on `PeliculaCreate.año`:
`Field(ge=1888, description="Año de estreno")`. -/
def pelicula_year_field_ok (anio : Int) : Bool :=
  decide (1888 ≤ anio)

/-- `PeliculaCreate.validate_año`: rejects the year unless
`validar_año` accepts it. -/
def PeliculaCreate.«validate_año» (anio_actual anio : Int) : Except String Int :=
  if «validar_año» anio_actual anio then .ok anio
  else .error ("El año debe estar entre 1900 y " ++ toString anio_actual)

/-- Whether a creation request's `año` passes both the field constraint
and the field validator (both must accept for `PeliculaCreate` to
validate). -/
def pelicula_year_accepted (anio_actual anio : Int) : Bool :=
  pelicula_year_field_ok anio && (PeliculaCreate.«validate_año» anio_actual anio).isOk

/-- C3: the code rejects year 1887 as claimed, but it also rejects 1888:
`validar_año` demands `1900 ≤ año`, although the field declaration
(`Field(ge=1888)`), the model comment ("El cine comenzó en 1888") and the
test comment state 1888 as the intended lower bound.  Evaluated at current
year 2025. -/
theorem year_1888_rejected :
    pelicula_year_accepted 2025 1887 = false
    ∧ pelicula_year_accepted 2025 1888 = false
    ∧ pelicula_year_field_ok 1888 = true
    ∧ «validar_año» 2025 1888 = false
    ∧ pelicula_year_accepted 2025 1900 = true := by
  decide

/-! ## Favorite existence check (`favoritos.py: verificar_favorito`) — claim C10 -/

/-- The JSON object returned by `verificar_favorito`; `none` models an
absent key (the negative answer carries only `es_favorito`). -/
structure VerificarResp where
  es_favorito : Bool
  favorito_id : Option Int
  fecha_marcado : Option Nat
deriving Repr, DecidableEq

/-- `GET /api/favoritos/verificar/{usuario_id}/{pelicula_id}`: looks up the
first favorite row matching both ids; never checks that the user or the
movie exists. -/
def verificar_favorito (db : DB) (usuario_id pelicula_id : Int) :
    Except ApiError VerificarResp :=
  match db.favoritos.find? (fun f => f.id_usuario == usuario_id && f.id_pelicula == pelicula_id) with
  | some favorito =>
      .ok { es_favorito := true, favorito_id := some favorito.id,
            fecha_marcado := some favorito.fecha_marcado }
  | none => .ok { es_favorito := false, favorito_id := none, fecha_marcado := none }

/-- C10: `verificar_favorito` is total: for every store and every id pair
(including ids of non-existent users/movies) it succeeds, answering
`es_favorito = true` with the matching row's id and timestamp exactly when
a matching favorite exists, and a bare `es_favorito = false` otherwise. -/
theorem verificar_favorito_total (db : DB) (usuario_id pelicula_id : Int) :
    ∃ r, verificar_favorito db usuario_id pelicula_id = .ok r
      ∧ (r.es_favorito = true ↔
          ∃ f ∈ db.favoritos, f.id_usuario = usuario_id ∧ f.id_pelicula = pelicula_id)
      ∧ (r.es_favorito = true →
          ∃ f ∈ db.favoritos, f.id_usuario = usuario_id ∧ f.id_pelicula = pelicula_id
            ∧ r.favorito_id = some f.id ∧ r.fecha_marcado = some f.fecha_marcado)
      ∧ (r.es_favorito = false → r.favorito_id = none ∧ r.fecha_marcado = none) := by
  rcases hfind : db.favoritos.find?
      (fun f => f.id_usuario == usuario_id && f.id_pelicula == pelicula_id) with - | favorito
  · have hnone := List.find?_eq_none.mp hfind
    refine ⟨⟨false, none, none⟩,
      by simp only [verificar_favorito, hfind], ?_, ?_, ?_⟩
    · constructor
      · intro h
        simp at h
      · rintro ⟨f, hf, h1, h2⟩
        exact absurd (show (f.id_usuario == usuario_id && f.id_pelicula == pelicula_id) = true
          by simp [h1, h2]) (hnone f hf)
    · intro h
      simp at h
    · intro _
      exact ⟨rfl, rfl⟩
  · have hmem := List.mem_of_find?_eq_some hfind
    have hp := List.find?_some hfind
    simp only [Bool.and_eq_true, beq_iff_eq] at hp
    refine ⟨⟨true, some favorito.id, some favorito.fecha_marcado⟩,
      by simp only [verificar_favorito, hfind], ?_, ?_, ?_⟩
    · exact iff_of_true rfl ⟨favorito, hmem, hp.1, hp.2⟩
    · intro _
      exact ⟨favorito, hmem, hp.1, hp.2, rfl, rfl⟩
    · intro h
      simp at h

/-! ## Creating a favorite (`favoritos.py: crear_favorito`) — claim C4 -/

/-- Autoincrement primary key for a new favorite row. -/
def nextFavoritoId (db : DB) : Int :=
  (db.favoritos.map (fun f => f.id)).foldr max 0 + 1

/-- `POST /api/favoritos/`.  The leading positivity test embeds the
`FavoritoCreate` schema validation (`Field(gt=0)` and
`validate_positive_ids`), which runs before the handler; the handler then
checks the user, the movie and the duplicate, in that order.  The
duplicate rejection is the spec's Conflict error (the code raises
HTTP 400 "Este favorito ya existe" there). -/
def crear_favorito (db : DB) (now : Nat) (id_usuario id_pelicula : Int) :
    Except ApiError Favorito × DB :=
  if id_usuario ≤ 0 ∨ id_pelicula ≤ 0 then
    (.error (.validation "Los IDs deben ser números positivos"), db)
  else
    match getUsuario db id_usuario with
    | none => (.error (.notFound ("Usuario con id " ++ toString id_usuario ++ " no encontrado")), db)
    | some _ =>
      match getPelicula db id_pelicula with
      | none => (.error (.notFound ("Película con id " ++ toString id_pelicula ++ " no encontrada")), db)
      | some _ =>
        match db.favoritos.find? (fun f => f.id_usuario == id_usuario && f.id_pelicula == id_pelicula) with
        | some _ => (.error (.conflict "Este favorito ya existe"), db)
        | none =>
          let fav : Favorito := ⟨nextFavoritoId db, id_usuario, id_pelicula, now⟩
          (.ok fav, { db with favoritos := db.favoritos ++ [fav] })

/-- Uniqueness of the (user, movie) pair across the stored favorites —
the invariant behind the `UniqueConstraint('id_usuario', 'id_pelicula')`
declaration and the handler's duplicate check. -/
def favPairUnique (db : DB) : Prop :=
  db.favoritos.Pairwise (fun f g => ¬(f.id_usuario = g.id_usuario ∧ f.id_pelicula = g.id_pelicula))

/-- C4: if user `uid` and movie `pid` exist and a favorite `(uid, pid)` is
already stored, creating the same pair again fails with the Conflict error
and the store (in particular the favorite set) is unchanged; moreover
`crear_favorito` preserves the (user, movie)-pair uniqueness invariant on
every store. -/
theorem crear_favorito_duplicate (db : DB) (now : Nat) (uid pid : Int)
    (huid : 0 < uid) (hpid : 0 < pid)
    (hu : ∃ u ∈ db.usuarios, u.id = uid)
    (hp : ∃ p ∈ db.peliculas, p.id = pid)
    (hf : ∃ f ∈ db.favoritos, f.id_usuario = uid ∧ f.id_pelicula = pid) :
    (crear_favorito db now uid pid).1 = .error (.conflict "Este favorito ya existe")
    ∧ (crear_favorito db now uid pid).2 = db
    ∧ (∀ db₂ now₂ uid₂ pid₂, favPairUnique db₂ →
        favPairUnique (crear_favorito db₂ now₂ uid₂ pid₂).2) := by
  have hneg : ¬(uid ≤ 0 ∨ pid ≤ 0) := by omega
  obtain ⟨u, humem, huideq⟩ := hu
  obtain ⟨u', hgu⟩ := Option.isSome_iff_exists.mp
    (List.find?_isSome.mpr ⟨u, humem, by simp [huideq]⟩ :
      (getUsuario db uid).isSome)
  obtain ⟨p, hpmem, hpideq⟩ := hp
  obtain ⟨p', hgp⟩ := Option.isSome_iff_exists.mp
    (List.find?_isSome.mpr ⟨p, hpmem, by simp [hpideq]⟩ :
      (getPelicula db pid).isSome)
  obtain ⟨f, hfmem, hf1, hf2⟩ := hf
  obtain ⟨f', hgf⟩ := Option.isSome_iff_exists.mp
    (List.find?_isSome.mpr ⟨f, hfmem, by simp [hf1, hf2]⟩ :
      (db.favoritos.find? (fun g => g.id_usuario == uid && g.id_pelicula == pid)).isSome)
  refine ⟨?_, ?_, ?_⟩
  · simp [crear_favorito, hneg, getUsuario, getPelicula] at *
    simp [crear_favorito, hneg, hgu, hgp, hgf, getUsuario, getPelicula]
  · simp [crear_favorito, hneg, getUsuario, getPelicula] at *
    simp [crear_favorito, hneg, hgu, hgp, hgf, getUsuario, getPelicula]
  · intro db₂ now₂ uid₂ pid₂ hU
    by_cases h2 : uid₂ ≤ 0 ∨ pid₂ ≤ 0
    · simpa [crear_favorito, h2] using hU
    · rcases hg1 : getUsuario db₂ uid₂ with - | u₂
      · simpa [crear_favorito, h2, hg1] using hU
      · rcases hg2 : getPelicula db₂ pid₂ with - | p₂
        · simpa [crear_favorito, h2, hg1, hg2] using hU
        · rcases hg3 : db₂.favoritos.find?
              (fun g => g.id_usuario == uid₂ && g.id_pelicula == pid₂) with - | f₂
          · have hnone := List.find?_eq_none.mp hg3
            have hgoal : favPairUnique
                { db₂ with favoritos := db₂.favoritos ++ [⟨nextFavoritoId db₂, uid₂, pid₂, now₂⟩] } := by
              unfold favPairUnique at hU ⊢
              rw [List.pairwise_append]
              refine ⟨hU, List.pairwise_singleton _ _, ?_⟩
              intro a ha b hb
              simp only [List.mem_singleton] at hb
              subst hb
              rintro ⟨e1, e2⟩
              exact hnone a ha (by simp [e1, e2])
            simpa [crear_favorito, h2, hg1, hg2, hg3] using hgoal
          · simpa [crear_favorito, h2, hg1, hg2, hg3] using hU

/-- Closed witness for `crear_favorito_duplicate`: user 1, movie 2 and the
favorite (1,2) exist; re-creating the pair is rejected. -/
theorem crear_favorito_duplicate_witness :
    ((0 : Int) < 1 ∧ (0 : Int) < 2) ∧
    ((crear_favorito
        { usuarios := [⟨1, "Ana", "ana@x.com", 0⟩],
          peliculas := [⟨2, "X", "D", "Drama", 100, 2020, "PG", none, 0, none⟩],
          favoritos := [⟨5, 1, 2, 7⟩] } 9 1 2).1 = .error (.conflict "Este favorito ya existe")
      ∧ (crear_favorito
        { usuarios := [⟨1, "Ana", "ana@x.com", 0⟩],
          peliculas := [⟨2, "X", "D", "Drama", 100, 2020, "PG", none, 0, none⟩],
          favoritos := [⟨5, 1, 2, 7⟩] } 9 1 2).2 =
        { usuarios := [⟨1, "Ana", "ana@x.com", 0⟩],
          peliculas := [⟨2, "X", "D", "Drama", 100, 2020, "PG", none, 0, none⟩],
          favoritos := [⟨5, 1, 2, 7⟩] }
      ∧ (∀ db₂ now₂ uid₂ pid₂, favPairUnique db₂ →
          favPairUnique (crear_favorito db₂ now₂ uid₂ pid₂).2)) :=
  ⟨⟨by decide, by decide⟩,
   crear_favorito_duplicate _ 9 1 2 (by decide) (by decide)
     ⟨⟨1, "Ana", "ana@x.com", 0⟩, by simp, rfl⟩
     ⟨⟨2, "X", "D", "Drama", 100, 2020, "PG", none, 0, none⟩, by simp, rfl⟩
     ⟨⟨5, 1, 2, 7⟩, by simp, rfl, rfl⟩⟩

/-! ## Deleting users, movies, favorites (claim C5)

The delete handlers only call `session.delete(parent)` while their
docstrings promise that the dependent favorites are removed ("También se
eliminarán todos los favoritos asociados", comment "los favoritos se
eliminan por CASCADE", backed by the `ondelete="CASCADE"` DDL in
`models.py`).  At runtime no cascade happens: the application never issues
SQLite's `PRAGMA foreign_keys=ON`, so the declared DDL cascade is inert,
and the `Relationship`s declare no delete cascade or `passive_deletes`,
so SQLAlchemy's default behaviour on deleting a parent is to load the
dependent `favorito` rows and null their foreign-key column (the column
is nullable at the database level: each is a bare
`Column(ForeignKey(...))`).  The favorite rows therefore survive the
delete with a nulled reference, which is what
`eliminar_usuario`/`eliminar_pelicula` model below. -/

/-- A `favorito` row as stored at the database level, where the two
foreign-key columns are nullable (and are nulled by a parent delete). -/
structure FavoritoRow where
  id : Int
  id_usuario : Option Int
  id_pelicula : Option Int
  fecha_marcado : Nat
deriving Repr, DecidableEq

/-- A favorite row with both references intact. -/
def Favorito.toRow (f : Favorito) : FavoritoRow :=
  ⟨f.id, some f.id_usuario, some f.id_pelicula, f.fecha_marcado⟩

/-- The store as seen after a parent delete, with possibly-nulled
favorite references. -/
structure DBRows where
  usuarios : List Usuario
  peliculas : List Pelicula
  favoritos : List FavoritoRow
deriving Repr, DecidableEq

/-- A store all of whose favorite references are intact. -/
def DB.toRows (db : DB) : DBRows :=
  { usuarios := db.usuarios, peliculas := db.peliculas,
    favoritos := db.favoritos.map Favorito.toRow }

/-- `DELETE /api/usuarios/{usuario_id}`: removes the user row; the
dependent favorito rows are kept with `id_usuario` set to NULL
(SQLAlchemy's nullify-on-delete — the DDL cascade never fires because
SQLite foreign-key enforcement is off). -/
def eliminar_usuario (db : DB) (uid : Int) : Except ApiError Unit × DBRows :=
  match getUsuario db uid with
  | none => (.error (.notFound ("Usuario con id " ++ toString uid ++ " no encontrado")), db.toRows)
  | some _ =>
      (.ok (), { usuarios := db.usuarios.filter (fun u => !(u.id == uid)),
                 peliculas := db.peliculas,
                 favoritos := db.favoritos.map (fun f =>
                   if f.id_usuario == uid then ⟨f.id, none, some f.id_pelicula, f.fecha_marcado⟩
                   else f.toRow) })

/-- `DELETE /api/peliculas/{pelicula_id}`: the same nullify on the movie
side — the favorito rows survive with `id_pelicula` nulled. -/
def eliminar_pelicula (db : DB) (pid : Int) : Except ApiError Unit × DBRows :=
  match getPelicula db pid with
  | none => (.error (.notFound ("Película con id " ++ toString pid ++ " no encontrada")), db.toRows)
  | some _ =>
      (.ok (), { usuarios := db.usuarios,
                 peliculas := db.peliculas.filter (fun p => !(p.id == pid)),
                 favoritos := db.favoritos.map (fun f =>
                   if f.id_pelicula == pid then ⟨f.id, some f.id_usuario, none, f.fecha_marcado⟩
                   else f.toRow) })

/-- `DELETE /api/favoritos/{favorito_id}`: a favorite row is genuinely
deleted by its own endpoint. -/
def eliminar_favorito (db : DB) (fid : Int) : Except ApiError Unit × DB :=
  match db.favoritos.find? (fun f => f.id == fid) with
  | none => (.error (.notFound ("Favorito con id " ++ toString fid ++ " no encontrado")), db)
  | some _ => (.ok (), { db with favoritos := db.favoritos.filter (fun f => !(f.id == fid)) })

/-- The store of the C5 failing input: user 1 with exactly one favorite,
movie 2. -/
def dbUnFavorito : DB :=
  { usuarios := [⟨1, "Ana", "ana@x.com", 0⟩],
    peliculas := [⟨2, "X", "D", "Drama", 100, 2020, "PG", none, 0, none⟩],
    favoritos := [⟨5, 1, 2, 7⟩] }

/-- C5: the code does not do what the claim (and its own docstrings and
DDL) say.  Deleting user 1, who has exactly one favorite, removes the
user but keeps the favorito row — with its `id_usuario` nulled — so the
favorite count is unchanged and a dangling row remains; deleting movie 2
likewise keeps the row with `id_pelicula` nulled.  The dependent favorite
records are not removed. -/
theorem eliminar_no_cascade :
    (eliminar_usuario dbUnFavorito 1).1 = .ok ()
    ∧ (eliminar_usuario dbUnFavorito 1).2.usuarios = []
    ∧ (eliminar_usuario dbUnFavorito 1).2.favoritos = [⟨5, none, some 2, 7⟩]
    ∧ (eliminar_usuario dbUnFavorito 1).2.favoritos.length = dbUnFavorito.favoritos.length
    ∧ (eliminar_pelicula dbUnFavorito 2).1 = .ok ()
    ∧ (eliminar_pelicula dbUnFavorito 2).2.peliculas = []
    ∧ (eliminar_pelicula dbUnFavorito 2).2.favoritos = [⟨5, some 1, none, 7⟩]
    ∧ (eliminar_pelicula dbUnFavorito 2).2.favoritos.length = dbUnFavorito.favoritos.length :=
  ⟨rfl, rfl, rfl, rfl, rfl, rfl, rfl, rfl⟩

/-! ## Creating a user (`usuarios.py: crear_usuario`) — claim C6 -/

/-- Python `str.lower()` on the characters of the string (ASCII case
folding, as in the stored email addresses). -/
def lowerStr (s : String) : String :=
  ⟨s.data.map Char.toLower⟩

/-- Characters admitted by the local part of `utils.validar_correo`:
the regex class `[a-zA-Z0-9._%+-]`. -/
def isLocalChar (c : Char) : Bool :=
  c.isAlphanum || c == '.' || c == '_' || c == '%' || c == '+' || c == '-'

/-- Characters admitted by the domain part: the regex class `[a-zA-Z0-9.-]`. -/
def isDomainChar (c : Char) : Bool :=
  c.isAlphanum || c == '.' || c == '-'

/-- `utils.validar_correo`: matches the anchored regex
`^[a-zA-Z0-9._%+-]+@[a-zA-Z0-9.-]+\.[a-zA-Z]{2,}$`.  Since `@` belongs to
neither class, a match exists exactly when the text before the first `@`
is a non-empty run of local characters and the rest consists of domain
characters, containing a dot with at least one character before the last
dot and at least two alphabetic characters after it. -/
def validar_correo (correo : String) : Bool :=
  let cs := correo.data
  let localPart := cs.takeWhile (fun c => c != '@')
  match cs.drop localPart.length with
  | '@' :: rest =>
      !localPart.isEmpty && localPart.all isLocalChar &&
      !rest.isEmpty && rest.all isDomainChar &&
      (let tld := (rest.reverse.takeWhile (fun c => c != '.')).reverse
       2 ≤ tld.length && tld.all (fun c => c.isAlpha) &&
       tld.length + 2 ≤ rest.length)
  | _ => false

/-- A (schema-validated) `UsuarioCreate` payload. -/
structure UsuarioCreate where
  nombre : String
  correo : String
deriving Repr, DecidableEq

/-- `UsuarioCreate.validate_email`: rejects emails that fail
`validar_correo` and lowercases the accepted ones. -/
def UsuarioCreate.validate_email (correo : String) : Except String String :=
  if validar_correo correo then .ok (lowerStr correo)
  else .error "El correo no es valido"

/-- `UsuarioCreate.validar_nombre`: strips the name, rejects the empty
string, the (buggy) conjunction `len < 2 and len <= 50`, and any character
that is neither alphanumeric nor a space. -/
def UsuarioCreate.validar_nombre (nombre : String) : Except String String :=
  let n := nombre.trim
  if n = "" then .error "El nombre no puede estar vacio"
  else if n.length < 2 ∧ n.length ≤ 50 then
    .error "la cantidad de caracteres del nombre de estar entre 2 y 50 caracteres"
  else if !(n.data.all (fun c => c.isAlphanum || c.isWhitespace)) then
    .error "El nombre solo puede contener letras, numeros y espacios"
  else .ok n

/-- Full `UsuarioCreate` schema validation. -/
def UsuarioCreate.validate (nombre correo : String) : Except String UsuarioCreate := do
  let n ← UsuarioCreate.validar_nombre nombre
  let c ← UsuarioCreate.validate_email correo
  pure ⟨n, c⟩

/-- Autoincrement primary key for a new user row. -/
def nextUsuarioId (db : DB) : Int :=
  (db.usuarios.map (fun u => u.id)).foldr max 0 + 1

/-- `POST /api/usuarios/`: looks for a stored user whose email equals the
lowercased requested email, rejects with the duplicate-email error
(HTTP 400, the spec's Conflict), otherwise inserts the new row. -/
def crear_usuario (db : DB) (now : Nat) (usuario : UsuarioCreate) :
    Except ApiError Usuario × DB :=
  match db.usuarios.find? (fun x => x.correo == lowerStr usuario.correo) with
  | some _ => (.error (.conflict (usuario.correo ++ " ya se encuentra en uso")), db)
  | none =>
      let nuevo : Usuario := ⟨nextUsuarioId db, usuario.nombre, usuario.correo, now⟩
      (.ok nuevo, { db with usuarios := db.usuarios ++ [nuevo] })

/-- Case-insensitive uniqueness of user emails. -/
def emailUnique (db : DB) : Prop :=
  db.usuarios.Pairwise (fun a b => lowerStr a.correo ≠ lowerStr b.correo)

/-- Stored emails are lowercase — the form in which `crear_usuario`
persists them, since `validate_email` lowercases every accepted email. -/
def emailsLowercase (db : DB) : Prop :=
  ∀ u ∈ db.usuarios, lowerStr u.correo = u.correo

/-- C6: in a store whose emails are lowercase (as creation persists them),
creating a user whose requested email equals a stored one up to case fails
with the Conflict error and the user set is unchanged; and on every store
`crear_usuario` preserves the lowercase-email and case-insensitive email
uniqueness invariants. -/
theorem crear_usuario_duplicate_email (db : DB) (now : Nat) (usuario : UsuarioCreate)
    (hlow : emailsLowercase db)
    (hex : ∃ u ∈ db.usuarios, lowerStr u.correo = lowerStr usuario.correo) :
    (∃ d, (crear_usuario db now usuario).1 = .error (.conflict d))
    ∧ (crear_usuario db now usuario).2 = db
    ∧ (∀ db₂ now₂ u₂, lowerStr u₂.correo = u₂.correo → emailsLowercase db₂ →
        emailUnique db₂ →
          emailUnique (crear_usuario db₂ now₂ u₂).2
          ∧ emailsLowercase (crear_usuario db₂ now₂ u₂).2) := by
  obtain ⟨u, humem, hueq⟩ := hex
  have hfound : (db.usuarios.find? (fun x => x.correo == lowerStr usuario.correo)).isSome := by
    refine List.find?_isSome.mpr ⟨u, humem, ?_⟩
    have h1 := hlow u humem
    rw [beq_iff_eq, ← h1, hueq]
  obtain ⟨u', hgu⟩ := Option.isSome_iff_exists.mp hfound
  refine ⟨?_, ?_, ?_⟩
  · exact ⟨usuario.correo ++ " ya se encuentra en uso", by simp [crear_usuario, hgu]⟩
  · simp [crear_usuario, hgu]
  · intro db₂ now₂ u₂ hu₂low hlow₂ huniq₂
    rcases hg : db₂.usuarios.find? (fun x => x.correo == lowerStr u₂.correo) with - | w
    · have hnone := List.find?_eq_none.mp hg
      constructor
      · unfold emailUnique at huniq₂ ⊢
        simp only [crear_usuario, hg]
        rw [List.pairwise_append]
        refine ⟨huniq₂, List.pairwise_singleton _ _, ?_⟩
        intro a ha b hb
        simp only [List.mem_singleton] at hb
        subst hb
        intro heq
        have ha_low := hlow₂ a ha
        apply hnone a ha
        rw [beq_iff_eq, ← ha_low, heq, hu₂low]
      · intro v hv
        simp only [crear_usuario, hg, List.mem_append, List.mem_singleton] at hv
        rcases hv with hv | hv
        · exact hlow₂ v hv
        · subst hv
          exact hu₂low
    · constructor
      · simpa [crear_usuario, hg] using huniq₂
      · intro v hv
        simp only [crear_usuario, hg] at hv
        exact hlow₂ v hv

/-- Closed witness for `crear_usuario_duplicate_email`: the store holds
`ana@x.com`; creating a user with email `Ana@X.com` (which lowercases to
the stored address) is rejected. -/
theorem crear_usuario_duplicate_email_witness :
    (emailsLowercase { usuarios := [⟨1, "Ana", "ana@x.com", 0⟩], peliculas := [], favoritos := [] }
      ∧ ∃ u ∈ [({ id := 1, nombre := "Ana", correo := "ana@x.com", fecha_registro := 0 } : Usuario)],
          lowerStr u.correo = lowerStr "Ana@X.com") ∧
    ((∃ d, (crear_usuario { usuarios := [⟨1, "Ana", "ana@x.com", 0⟩], peliculas := [], favoritos := [] }
        3 ⟨"Otra", "Ana@X.com"⟩).1 = .error (.conflict d))
      ∧ (crear_usuario { usuarios := [⟨1, "Ana", "ana@x.com", 0⟩], peliculas := [], favoritos := [] }
          3 ⟨"Otra", "Ana@X.com"⟩).2 =
        { usuarios := [⟨1, "Ana", "ana@x.com", 0⟩], peliculas := [], favoritos := [] }
      ∧ (∀ db₂ now₂ u₂, lowerStr u₂.correo = u₂.correo → emailsLowercase db₂ →
          emailUnique db₂ →
            emailUnique (crear_usuario db₂ now₂ u₂).2
            ∧ emailsLowercase (crear_usuario db₂ now₂ u₂).2)) :=
  ⟨⟨by
      intro u hu
      simp only [List.mem_singleton] at hu
      subst hu
      decide,
    ⟨⟨1, "Ana", "ana@x.com", 0⟩, by simp, by decide⟩⟩,
   crear_usuario_duplicate_email _ 3 ⟨"Otra", "Ana@X.com"⟩
     (by
      intro u hu
      simp only [List.mem_singleton] at hu
      subst hu
      decide)
     ⟨⟨1, "Ana", "ana@x.com", 0⟩, by simp, by decide⟩⟩

/-! ## Recommendations (`favoritos.py: obtener_recomendaciones`) — claim C7 -/

/-- The response schema `PeliculaRead` (`app/schemas.py`). -/
structure PeliculaRead where
  id : Int
  titulo : String
  director : String
  genero : String
  duracion : Int
  «año» : Int
  clasificacion : String
  sinopsis : Option String
  fecha_creacion : Nat
  image_url : Option String
deriving Repr, DecidableEq

/-- `PeliculaRead.from_db_model` with an explicit `base_url` (the class
method's keyword default is the empty string): the image URL is generated
exactly when the row holds an image blob. -/
def PeliculaRead.from_db_model_base (base_url : String) (p : Pelicula) : PeliculaRead :=
  { id := p.id, titulo := p.titulo, director := p.director, genero := p.genero,
    duracion := p.duracion, «año» := p.«año», clasificacion := p.clasificacion,
    sinopsis := p.sinopsis, fecha_creacion := p.fecha_creacion,
    image_url := match p.image_file with
      | some _ => some (base_url ++ "/api/peliculas/imagen/" ++ toString p.id)
      | none => none }

/-- `PeliculaRead.from_db_model` at the default `base_url=""`, as the
routers call it. -/
def PeliculaRead.from_db_model (p : Pelicula) : PeliculaRead :=
  PeliculaRead.from_db_model_base "" p

/-- The SQL join `select(Pelicula).join(Favorito).where(Favorito.id_usuario
== usuario_id)`: one movie per (movie, favorite-of-the-user) pair. -/
def peliculas_favoritas_de (db : DB) (usuario_id : Int) : List Pelicula :=
  db.peliculas.flatMap (fun p =>
    (db.favoritos.filter (fun f => f.id_pelicula == p.id && f.id_usuario == usuario_id)).map
      (fun _ => p))

/-- The `favoritos_info` rows of `obtener_recomendaciones`:
`select(Pelicula.genero, Pelicula.director).join(Favorito).where(...)`. -/
def favoritos_info (db : DB) (usuario_id : Int) : List (String × String) :=
  (peliculas_favoritas_de db usuario_id).map (fun p => (p.genero, p.director))

/-- `generos`: genres appearing among the user's favorites (join rows). -/
def generos_de (db : DB) (usuario_id : Int) : List String :=
  (favoritos_info db usuario_id).map Prod.fst

/-- `directores`: directors appearing among the user's favorites. -/
def directores_de (db : DB) (usuario_id : Int) : List String :=
  (favoritos_info db usuario_id).map Prod.snd

/-- `ids_favoritos`: `select(Favorito.id_pelicula).where(Favorito.id_usuario
== usuario_id)`. -/
def ids_favoritos_de (db : DB) (usuario_id : Int) : List Int :=
  (db.favoritos.filter (fun f => f.id_usuario == usuario_id)).map (fun f => f.id_pelicula)

/-- `GET /api/favoritos/recomendaciones/{usuario_id}`: 404 for an unknown
user; empty result when the join yields no favorite info; otherwise movies
whose genre or director appears among the favorites, excluding (when the
favorite-id list is non-empty, as the code guards) already-favorited
movies, capped at `limit`. -/
def obtener_recomendaciones (db : DB) (usuario_id : Int) (limit : Nat) :
    Except ApiError (List PeliculaRead) :=
  match getUsuario db usuario_id with
  | none => .error (.notFound ("Usuario con id " ++ toString usuario_id ++ " no encontrado"))
  | some _ =>
      if (favoritos_info db usuario_id).isEmpty then .ok []
      else
        let gs := generos_de db usuario_id
        let ds := directores_de db usuario_id
        let ids := ids_favoritos_de db usuario_id
        .ok (((db.peliculas.filter (fun p =>
            (gs.contains p.genero || ds.contains p.director)
            && (if ids.isEmpty then true else !(ids.contains p.id)))).take limit).map
          PeliculaRead.from_db_model)

/-- C7: for an unknown user id the recommendation endpoint fails with
NotFound; for an existing user with no favorites it returns the empty list
(not an error); and every successful result has at most `limit` movies,
each with a genre or director drawn from the user's favorites and none of
them already favorited by the user. -/
theorem obtener_recomendaciones_spec (db : DB) (usuario_id : Int) (limit : Nat) :
    ((¬ ∃ u ∈ db.usuarios, u.id = usuario_id) →
        ∃ d, obtener_recomendaciones db usuario_id limit = .error (.notFound d))
    ∧ ((∃ u ∈ db.usuarios, u.id = usuario_id) →
        (∀ f ∈ db.favoritos, f.id_usuario ≠ usuario_id) →
          obtener_recomendaciones db usuario_id limit = .ok [])
    ∧ (∀ res, obtener_recomendaciones db usuario_id limit = .ok res →
        res.length ≤ limit
        ∧ ∀ r ∈ res,
            (r.genero ∈ generos_de db usuario_id ∨ r.director ∈ directores_de db usuario_id)
            ∧ r.id ∉ ids_favoritos_de db usuario_id) := by
  refine ⟨?_, ?_, ?_⟩
  · intro hnone
    have hg : getUsuario db usuario_id = none := by
      rw [getUsuario, List.find?_eq_none]
      intro u hu
      simp only [beq_iff_eq]
      intro heq
      exact hnone ⟨u, hu, heq⟩
    exact ⟨"Usuario con id " ++ toString usuario_id ++ " no encontrado",
      by simp [obtener_recomendaciones, hg]⟩
  · rintro ⟨u, humem, hid⟩ hnofav
    obtain ⟨u', hgu⟩ := Option.isSome_iff_exists.mp
      (List.find?_isSome.mpr ⟨u, humem, by simp [hid]⟩ :
        (getUsuario db usuario_id).isSome)
    have hjoin : peliculas_favoritas_de db usuario_id = [] := by
      rw [List.eq_nil_iff_forall_not_mem]
      intro p hp
      rw [peliculas_favoritas_de, List.mem_flatMap] at hp
      obtain ⟨q, -, hq2⟩ := hp
      rw [List.mem_map] at hq2
      obtain ⟨f, hf, -⟩ := hq2
      obtain ⟨hfmem, hfpred⟩ := List.mem_filter.mp hf
      simp only [Bool.and_eq_true, beq_iff_eq] at hfpred
      exact hnofav f hfmem hfpred.2
    have hempty : (favoritos_info db usuario_id).isEmpty = true := by
      rw [favoritos_info, hjoin]
      rfl
    simp [obtener_recomendaciones, getUsuario, hgu, hempty]
  · intro res hres
    rcases hg : getUsuario db usuario_id with - | u
    · simp [obtener_recomendaciones, hg] at hres
    · by_cases hempty : (favoritos_info db usuario_id).isEmpty = true
      · simp only [obtener_recomendaciones, hg, hempty, if_true] at hres
        cases hres
        exact ⟨by simp, by simp⟩
      · simp only [obtener_recomendaciones, hg, hempty, if_false] at hres
        cases hres
        constructor
        · calc (List.map PeliculaRead.from_db_model _).length
              = (List.take limit (List.filter _ db.peliculas)).length := by
                rw [List.length_map]
          _ ≤ limit := List.length_take_le _ _
        · intro r hr
          rw [List.mem_map] at hr
          obtain ⟨p, hpmem, hpr⟩ := hr
          have hpfil := List.mem_filter.mp (List.take_subset _ _ hpmem)
          have hpred := hpfil.2
          simp only [Bool.and_eq_true] at hpred
          obtain ⟨hgd, hids⟩ := hpred
          subst hpr
          constructor
          · rcases Bool.or_eq_true_iff.mp hgd with h | h
            · refine Or.inl ?_
              have hmem2 : p.genero ∈ generos_de db usuario_id := by simpa using h
              simpa [PeliculaRead.from_db_model, PeliculaRead.from_db_model_base] using hmem2
            · refine Or.inr ?_
              have hmem2 : p.director ∈ directores_de db usuario_id := by simpa using h
              simpa [PeliculaRead.from_db_model, PeliculaRead.from_db_model_base] using hmem2
          · intro hmem
            by_cases hidsnil : (ids_favoritos_de db usuario_id).isEmpty = true
            · rw [List.isEmpty_iff] at hidsnil
              rw [hidsnil] at hmem
              exact List.not_mem_nil _ hmem
            · rw [if_neg hidsnil] at hids
              have hmem2 : p.id ∈ ids_favoritos_de db usuario_id := by
                simpa [PeliculaRead.from_db_model, PeliculaRead.from_db_model_base] using hmem
              have hcon : (ids_favoritos_de db usuario_id).contains p.id = true := by
                simpa using hmem2
              rw [hcon] at hids
              simp at hids

/-- Closed witness for `obtener_recomendaciones_spec` at a store with one
user (id 1) whose only favorite is movie 2 (genre Drama, director D), and
a second Drama movie 3, asking for up to 5 recommendations for user 1. -/
theorem obtener_recomendaciones_spec_witness :
    ((¬ ∃ u ∈ [({ id := 1, nombre := "Ana", correo := "ana@x.com", fecha_registro := 0 } : Usuario)],
        u.id = 1) →
      ∃ d, obtener_recomendaciones
        { usuarios := [⟨1, "Ana", "ana@x.com", 0⟩],
          peliculas := [⟨2, "X", "D", "Drama", 100, 2020, "PG", none, 0, none⟩,
                        ⟨3, "Y", "E", "Drama", 90, 2021, "PG", none, 0, none⟩],
          favoritos := [⟨5, 1, 2, 7⟩] } 1 5 = .error (.notFound d))
    ∧ ((∃ u ∈ [({ id := 1, nombre := "Ana", correo := "ana@x.com", fecha_registro := 0 } : Usuario)],
        u.id = 1) →
        (∀ f ∈ [({ id := 5, id_usuario := 1, id_pelicula := 2, fecha_marcado := 7 } : Favorito)],
          f.id_usuario ≠ 1) →
          obtener_recomendaciones
            { usuarios := [⟨1, "Ana", "ana@x.com", 0⟩],
              peliculas := [⟨2, "X", "D", "Drama", 100, 2020, "PG", none, 0, none⟩,
                            ⟨3, "Y", "E", "Drama", 90, 2021, "PG", none, 0, none⟩],
              favoritos := [⟨5, 1, 2, 7⟩] } 1 5 = .ok [])
    ∧ (∀ res, obtener_recomendaciones
          { usuarios := [⟨1, "Ana", "ana@x.com", 0⟩],
            peliculas := [⟨2, "X", "D", "Drama", 100, 2020, "PG", none, 0, none⟩,
                          ⟨3, "Y", "E", "Drama", 90, 2021, "PG", none, 0, none⟩],
            favoritos := [⟨5, 1, 2, 7⟩] } 1 5 = .ok res →
        res.length ≤ 5
        ∧ ∀ r ∈ res,
            (r.genero ∈ generos_de
                { usuarios := [⟨1, "Ana", "ana@x.com", 0⟩],
                  peliculas := [⟨2, "X", "D", "Drama", 100, 2020, "PG", none, 0, none⟩,
                                ⟨3, "Y", "E", "Drama", 90, 2021, "PG", none, 0, none⟩],
                  favoritos := [⟨5, 1, 2, 7⟩] } 1
              ∨ r.director ∈ directores_de
                { usuarios := [⟨1, "Ana", "ana@x.com", 0⟩],
                  peliculas := [⟨2, "X", "D", "Drama", 100, 2020, "PG", none, 0, none⟩,
                                ⟨3, "Y", "E", "Drama", 90, 2021, "PG", none, 0, none⟩],
                  favoritos := [⟨5, 1, 2, 7⟩] } 1)
            ∧ r.id ∉ ids_favoritos_de
                { usuarios := [⟨1, "Ana", "ana@x.com", 0⟩],
                  peliculas := [⟨2, "X", "D", "Drama", 100, 2020, "PG", none, 0, none⟩,
                                ⟨3, "Y", "E", "Drama", 90, 2021, "PG", none, 0, none⟩],
                  favoritos := [⟨5, 1, 2, 7⟩] } 1) :=
  obtener_recomendaciones_spec
    { usuarios := [⟨1, "Ana", "ana@x.com", 0⟩],
      peliculas := [⟨2, "X", "D", "Drama", 100, 2020, "PG", none, 0, none⟩,
                    ⟨3, "Y", "E", "Drama", 90, 2021, "PG", none, 0, none⟩],
      favoritos := [⟨5, 1, 2, 7⟩] } 1 5

/-! ## Per-user statistics (`usuarios.py: obtener_estadisticas_usuario`) — claim C8 -/

/-- Distinct elements in first-occurrence order (the key order of a Python
`Counter` built by iterating the list). -/
def firstOccurAux {α : Type} [BEq α] (seen : List α) : List α → List α
  | [] => []
  | x :: xs =>
      if seen.contains x then firstOccurAux seen xs
      else x :: firstOccurAux (x :: seen) xs

/-- Distinct elements in first-occurrence order. -/
def firstOccur {α : Type} [BEq α] (l : List α) : List α :=
  firstOccurAux [] l

/-- Stable insertion for a descending sort by count: the inserted element
stops in front of the first entry whose count is not larger, and every
entry it passes has a strictly larger count.  In `sortDesc` the inserted
element precedes the already-placed (originally later) elements of equal
count, so ties keep first-occurrence order — the behaviour of Python\'s
stable `sorted(..., reverse=True)` used by `Counter.most_common`. -/
def insertDesc {α : Type} (x : α × Nat) : List (α × Nat) → List (α × Nat)
  | [] => [x]
  | y :: ys => if y.2 ≤ x.2 then x :: y :: ys else y :: insertDesc x ys

/-- Stable descending sort by count. -/
def sortDesc {α : Type} : List (α × Nat) → List (α × Nat)
  | [] => []
  | x :: xs => insertDesc x (sortDesc xs)

/-- `Counter(l).most_common(n)`: the `n` most frequent elements with their
counts, most frequent first, ties in first-occurrence order. -/
def most_common {α : Type} [BEq α] (l : List α) (n : Nat) : List (α × Nat) :=
  (sortDesc ((firstOccur l).map (fun x => (x, l.count x)))).take n

/-- Python's `round(x, 2)` on the exact rational value (the code rounds a
float; claims never depend on the rounding mode, so half-up over ℚ stands
in for it). -/
def roundTo2 (x : ℚ) : ℚ :=
  (round (100 * x) : ℤ) / 100

/-- The statistics JSON of `obtener_estadisticas_usuario`.
`promedio_duracion := none` models a response dict with no
`promedio_duracion` key. -/
structure EstadisticasUsuario where
  usuario_id : Int
  nombre_usuario : String
  total_favoritos : Nat
  duracion_total_minutos : Int
  duracion_total_horas : ℚ
  generos_favoritos : List (String × Nat)
  directores_favoritos : List (String × Nat)
  decada_favorita : Option (String × Nat)
  clasificacion_mas_vista : Option (String × Nat)
  promedio_duracion : Option ℚ
deriving Repr, DecidableEq

/-- `GET /api/usuarios/{usuario_id}/estadisticas`: 404 for an unknown
user; when the favorites join is empty, the early-return dict (which has
no `promedio_duracion` key); otherwise the aggregated statistics,
including `promedio_duracion = round(min/total, 2) if total > 0 else 0`. -/
def obtener_estadisticas_usuario (db : DB) (usuario_id : Int) :
    Except ApiError EstadisticasUsuario :=
  match getUsuario db usuario_id with
  | none => .error (.notFound ("Usuario con id " ++ toString usuario_id ++ " no encontrado"))
  | some usuario =>
      let total_favoritos := (db.favoritos.filter (fun f => f.id_usuario == usuario_id)).length
      let peliculas_favoritas := peliculas_favoritas_de db usuario_id
      if peliculas_favoritas.isEmpty then
        .ok { usuario_id := usuario_id, nombre_usuario := usuario.nombre,
              total_favoritos := 0, duracion_total_minutos := 0, duracion_total_horas := 0,
              generos_favoritos := [], directores_favoritos := [],
              decada_favorita := none, clasificacion_mas_vista := none,
              promedio_duracion := none }
      else
        let duracion_total_minutos := (peliculas_favoritas.map (fun p => p.duracion)).sum
        let decadas := peliculas_favoritas.map (fun p => p.«año».fdiv 10 * 10)
        let decada_favorita := (most_common decadas 1).head?
        let clasificacion_mas_vista :=
          (most_common (peliculas_favoritas.map (fun p => p.clasificacion)) 1).head?
        .ok { usuario_id := usuario_id, nombre_usuario := usuario.nombre,
              total_favoritos := total_favoritos,
              duracion_total_minutos := duracion_total_minutos,
              duracion_total_horas := roundTo2 ((duracion_total_minutos : ℚ) / 60),
              generos_favoritos := most_common (peliculas_favoritas.map (fun p => p.genero)) 5,
              directores_favoritos := most_common (peliculas_favoritas.map (fun p => p.director)) 5,
              decada_favorita := decada_favorita.map (fun dc => (toString dc.1 ++ "s", dc.2)),
              clasificacion_mas_vista := clasificacion_mas_vista,
              promedio_duracion := if 0 < total_favoritos then
                  some (roundTo2 ((duracion_total_minutos : ℚ) / (total_favoritos : ℚ)))
                else some 0 }

/-- The claim C8 predicate: the zero-favorites statistics response as the
claim states it, including "an average duration per favorite of 0". -/
def estadisticas_zero_claim (db : DB) (usuario_id : Int) : Prop :=
  ∃ e, obtener_estadisticas_usuario db usuario_id = .ok e
    ∧ e.total_favoritos = 0 ∧ e.duracion_total_minutos = 0 ∧ e.duracion_total_horas = 0
    ∧ e.generos_favoritos = [] ∧ e.directores_favoritos = []
    ∧ e.decada_favorita = none ∧ e.clasificacion_mas_vista = none
    ∧ e.promedio_duracion = some 0

/-- C8 counterexample: for the store with a single user (id 1) and no
favorites, the statistics response does not carry `promedio_duracion = 0`:
the early return omits the key (the `else 0` branch lives on the non-empty
path only). -/
theorem estadisticas_zero_claim_false :
    ¬ estadisticas_zero_claim
      { usuarios := [⟨1, "Ana", "ana@x.com", 0⟩], peliculas := [], favoritos := [] } 1 := by
  rintro ⟨e, he, -, -, -, -, -, -, -, hprom⟩
  have h0 : obtener_estadisticas_usuario
      { usuarios := [⟨1, "Ana", "ana@x.com", 0⟩], peliculas := [], favoritos := [] } 1 =
      .ok { usuario_id := 1, nombre_usuario := "Ana",
            total_favoritos := 0, duracion_total_minutos := 0, duracion_total_horas := 0,
            generos_favoritos := [], directores_favoritos := [],
            decada_favorita := none, clasificacion_mas_vista := none,
            promedio_duracion := none } := by rfl
  rw [h0] at he
  cases he
  exact Option.noConfusion hprom

/-- C8 (amended): for an existing user with no favorites the statistics
endpoint returns zero totals, zero durations, empty top lists, null decade
and classification — and no `promedio_duracion` field at all (`none`),
rather than an average of 0. -/
theorem estadisticas_zero_favoritos (db : DB) (usuario_id : Int)
    (hu : ∃ u ∈ db.usuarios, u.id = usuario_id)
    (hz : ∀ f ∈ db.favoritos, f.id_usuario ≠ usuario_id) :
    ∃ e, obtener_estadisticas_usuario db usuario_id = .ok e
      ∧ e.total_favoritos = 0 ∧ e.duracion_total_minutos = 0 ∧ e.duracion_total_horas = 0
      ∧ e.generos_favoritos = [] ∧ e.directores_favoritos = []
      ∧ e.decada_favorita = none ∧ e.clasificacion_mas_vista = none
      ∧ e.promedio_duracion = none := by
  obtain ⟨u, humem, hid⟩ := hu
  obtain ⟨u', hgu⟩ := Option.isSome_iff_exists.mp
    (List.find?_isSome.mpr ⟨u, humem, by simp [hid]⟩ :
      (getUsuario db usuario_id).isSome)
  have hjoin : peliculas_favoritas_de db usuario_id = [] := by
    rw [List.eq_nil_iff_forall_not_mem]
    intro p hp
    rw [peliculas_favoritas_de, List.mem_flatMap] at hp
    obtain ⟨q, -, hq2⟩ := hp
    rw [List.mem_map] at hq2
    obtain ⟨f, hf, -⟩ := hq2
    obtain ⟨hfmem, hfpred⟩ := List.mem_filter.mp hf
    simp only [Bool.and_eq_true, beq_iff_eq] at hfpred
    exact hz f hfmem hfpred.2
  refine ⟨{ usuario_id := usuario_id, nombre_usuario := u'.nombre,
            total_favoritos := 0, duracion_total_minutos := 0, duracion_total_horas := 0,
            generos_favoritos := [], directores_favoritos := [],
            decada_favorita := none, clasificacion_mas_vista := none,
            promedio_duracion := none },
    ?_, rfl, rfl, rfl, rfl, rfl, rfl, rfl, rfl⟩
  simp [obtener_estadisticas_usuario, getUsuario, hgu, hjoin]

/-- Closed witness for `estadisticas_zero_favoritos`: a store with user 1,
one movie and one favorite belonging to user 2 only. -/
theorem estadisticas_zero_favoritos_witness :
    ((∃ u ∈ [({ id := 1, nombre := "Ana", correo := "ana@x.com", fecha_registro := 0 } : Usuario),
             ({ id := 2, nombre := "Bo", correo := "bo@x.com", fecha_registro := 0 } : Usuario)],
        u.id = 1)
      ∧ (∀ f ∈ [({ id := 5, id_usuario := 2, id_pelicula := 3, fecha_marcado := 7 } : Favorito)],
          f.id_usuario ≠ 1)) ∧
    (∃ e, obtener_estadisticas_usuario
        { usuarios := [⟨1, "Ana", "ana@x.com", 0⟩, ⟨2, "Bo", "bo@x.com", 0⟩],
          peliculas := [⟨3, "X", "D", "Drama", 100, 2020, "PG", none, 0, none⟩],
          favoritos := [⟨5, 2, 3, 7⟩] } 1 = .ok e
      ∧ e.total_favoritos = 0 ∧ e.duracion_total_minutos = 0 ∧ e.duracion_total_horas = 0
      ∧ e.generos_favoritos = [] ∧ e.directores_favoritos = []
      ∧ e.decada_favorita = none ∧ e.clasificacion_mas_vista = none
      ∧ e.promedio_duracion = none) :=
  ⟨⟨⟨⟨1, "Ana", "ana@x.com", 0⟩, by simp, rfl⟩, by decide⟩,
   estadisticas_zero_favoritos
     { usuarios := [⟨1, "Ana", "ana@x.com", 0⟩, ⟨2, "Bo", "bo@x.com", 0⟩],
       peliculas := [⟨3, "X", "D", "Drama", 100, 2020, "PG", none, 0, none⟩],
       favoritos := [⟨5, 2, 3, 7⟩] } 1
     ⟨⟨1, "Ana", "ana@x.com", 0⟩, by simp, rfl⟩ (by decide)⟩

/-! ## Paginated listings (claim C9)

`listar_usuarios` and `listar_favoritos` declare
`page: int = Query(1, ge=1)` and `limit: int = Query(10, ge=1, le=100)`;
`listar_peliculas` declares plain `page: int = 0, limit: int = 100` with
no constraints.  All three compute `offset = (page - 1) * limit` and issue
`select(...).order_by(id).offset(offset).limit(limit)`. -/

/-- The slice offset every listing computes. -/
def listing_offset (page limit : Int) : Int :=
  (page - 1) * limit

/-- The FastAPI `Query` bounds of `listar_usuarios`. -/
def listar_usuarios_query_ok (page limit : Int) : Bool :=
  decide (1 ≤ page) && decide (1 ≤ limit) && decide (limit ≤ 100)

/-- The FastAPI `Query` bounds of `listar_favoritos` (same as users). -/
def listar_favoritos_query_ok (page limit : Int) : Bool :=
  decide (1 ≤ page) && decide (1 ≤ limit) && decide (limit ≤ 100)

/-- `listar_peliculas` declares no `Query` bounds: every integer pair is
accepted (its defaults are `page = 0`, `limit = 100`). -/
def listar_peliculas_query_ok (_page _limit : Int) : Bool :=
  true

/-- Response schema `UsuarioRead`. -/
structure UsuarioRead where
  id : Int
  nombre : String
  correo : String
  fecha_registro : Nat
deriving Repr, DecidableEq

/-- `UsuarioRead.model_validate` on a row. -/
def UsuarioRead.ofUsuario (u : Usuario) : UsuarioRead :=
  ⟨u.id, u.nombre, u.correo, u.fecha_registro⟩

/-- Response schema `FavoritoRead`. -/
structure FavoritoRead where
  id : Int
  id_usuario : Int
  id_pelicula : Int
  fecha_marcado : Nat
deriving Repr, DecidableEq

/-- `FavoritoRead.model_validate` on a row. -/
def FavoritoRead.ofFavorito (f : Favorito) : FavoritoRead :=
  ⟨f.id, f.id_usuario, f.id_pelicula, f.fecha_marcado⟩

/-- Comparison by an integer key. -/
def relOfKey {α : Type} (key : α → Int) : α → α → Prop :=
  fun a b => key a ≤ key b

instance {α : Type} (key : α → Int) : DecidableRel (relOfKey key) :=
  fun a b => inferInstanceAs (Decidable (key a ≤ key b))

instance {α : Type} (key : α → Int) : IsTotal α (relOfKey key) :=
  ⟨fun a b => Int.le_total (key a) (key b)⟩

instance {α : Type} (key : α → Int) : IsTrans α (relOfKey key) :=
  ⟨fun _ _ _ h1 h2 => Int.le_trans h1 h2⟩

/-- `ORDER BY key ASC` (primary keys are the sort keys here, so any sorted
permutation is the query's deterministic answer). -/
def sortByKey {α : Type} (key : α → Int) (l : List α) : List α :=
  List.insertionSort (relOfKey key) l

lemma sortByKey_sorted {α : Type} (key : α → Int) (l : List α) :
    List.Pairwise (relOfKey key) (sortByKey key l) :=
  List.sorted_insertionSort _ l

/-- `OFFSET offset LIMIT limit` (SQLite treats a negative OFFSET as 0,
which `Int.toNat` matches). -/
def sliceBy {α : Type} (offset limit : Int) (l : List α) : List α :=
  (l.drop offset.toNat).take limit.toNat

lemma slice_sorted {α : Type} (key : α → Int) (l : List α) (off lim : Int) :
    List.Pairwise (relOfKey key) (sliceBy off lim (sortByKey key l)) :=
  List.Pairwise.sublist ((List.take_sublist _ _).trans (List.drop_sublist _ _))
    (sortByKey_sorted key l)

/-- `from_query` success returns the supplied items unchanged. -/
lemma from_query_items {α : Type} (items : List α) (t pg l : Nat)
    (out : PaginatedResponse α) (h : from_query items t pg l = .ok out) :
    out.items = items := by
  unfold from_query at h
  split_ifs at h
  exact (calculate_pagination_info_preserves _ _ h).1

/-- Success through `Except.mapError` also returns the items unchanged. -/
lemma from_query_mapError_items {α : Type} (items : List α) (t pg l : Nat)
    (out : PaginatedResponse α)
    (h : (from_query items t pg l).mapError ApiError.validation = .ok out) :
    out.items = items := by
  rcases hfq : from_query items t pg l with e | r
  · rw [hfq] at h
    exact absurd h (by simp [Except.mapError])
  · rw [hfq] at h
    simp only [Except.mapError] at h
    cases h
    exact from_query_items _ _ _ _ _ hfq

/-- `GET /api/usuarios/`: the Query validation, the slice ordered by id,
and the paginated wrapper. -/
def listar_usuarios (db : DB) (page limit : Int) :
    Except ApiError (PaginatedResponse UsuarioRead) :=
  if listar_usuarios_query_ok page limit then
    let offset := listing_offset page limit
    let items := (sliceBy offset limit (sortByKey (fun u => u.id) db.usuarios)).map
      UsuarioRead.ofUsuario
    (from_query items db.usuarios.length page.toNat limit.toNat).mapError ApiError.validation
  else .error (.validation "query parameter out of range")

/-- `GET /api/peliculas/`: no Query validation at all (`page: int = 0,
limit: int = 100`); the offset is evaluated unconditionally and the
`PaginatedResponse` field validator is what finally rejects `page < 1`. -/
def listar_peliculas (db : DB) (page limit : Int) :
    Except ApiError (PaginatedResponse PeliculaRead) :=
  let offset := listing_offset page limit
  let items := (sliceBy offset limit (sortByKey (fun p => p.id) db.peliculas)).map
    PeliculaRead.from_db_model
  (from_query items db.peliculas.length page.toNat limit.toNat).mapError ApiError.validation

/-- `GET /api/favoritos/`. -/
def listar_favoritos (db : DB) (page limit : Int) :
    Except ApiError (PaginatedResponse FavoritoRead) :=
  if listar_favoritos_query_ok page limit then
    let offset := listing_offset page limit
    let items := (sliceBy offset limit (sortByKey (fun f => f.id) db.favoritos)).map
      FavoritoRead.ofFavorito
    (from_query items db.favoritos.length page.toNat limit.toNat).mapError ApiError.validation
  else .error (.validation "query parameter out of range")

/-- C9 counterexample: the movies listing accepts `page = 0` (its own
default) with `limit = 100` and evaluates the negative offset `-100`,
contradicting "accepts only page ≥ 1 … no listing ever evaluates a
negative offset". -/
theorem listar_peliculas_negative_offset :
    listar_peliculas_query_ok 0 100 = true
    ∧ listing_offset 0 100 = -100
    ∧ listing_offset 0 100 < 0 := by
  decide

/-- C9 (amended): the users and favorites listings accept only `page ≥ 1`
and `limit ∈ [1,100]`, and under those bounds the computed offset
`(page-1)*limit` is never negative; all three listings return their items
ordered by id ascending.  The movies listing accepts any integers (default
`page = 0`) and then evaluates a negative offset whenever `page < 1`. -/
theorem listings_pagination_amended :
    (∀ page limit : Int, listar_usuarios_query_ok page limit = true →
        0 ≤ listing_offset page limit)
    ∧ (∀ page limit : Int, listar_favoritos_query_ok page limit = true →
        0 ≤ listing_offset page limit)
    ∧ (∀ db page limit out, listar_usuarios db page limit = .ok out →
        List.Pairwise (fun a b => a.id ≤ b.id) out.items)
    ∧ (∀ db page limit out, listar_peliculas db page limit = .ok out →
        List.Pairwise (fun a b => a.id ≤ b.id) out.items)
    ∧ (∀ db page limit out, listar_favoritos db page limit = .ok out →
        List.Pairwise (fun a b => a.id ≤ b.id) out.items) := by
  have hoffset : ∀ page limit : Int,
      (decide (1 ≤ page) && decide (1 ≤ limit) && decide (limit ≤ 100)) = true →
        0 ≤ listing_offset page limit := by
    intro page limit h
    simp only [Bool.and_eq_true, decide_eq_true_eq] at h
    have h1 : (0 : Int) ≤ page - 1 := by omega
    have h2 : (0 : Int) ≤ limit := by omega
    exact mul_nonneg h1 h2
  refine ⟨hoffset, hoffset, ?_, ?_, ?_⟩
  · intro db page limit out h
    by_cases hq : listar_usuarios_query_ok page limit = true
    · simp only [listar_usuarios, hq, if_true] at h
      have hitems := from_query_mapError_items _ _ _ _ _ h
      rw [hitems, List.pairwise_map]
      exact slice_sorted (fun u => u.id) db.usuarios _ _
    · simp only [listar_usuarios, hq, if_false, Bool.false_eq_true] at h
      cases h
  · intro db page limit out h
    simp only [listar_peliculas] at h
    have hitems := from_query_mapError_items _ _ _ _ _ h
    rw [hitems, List.pairwise_map]
    have := slice_sorted (fun p => p.id) db.peliculas
      (listing_offset page limit) limit
    exact this
  · intro db page limit out h
    by_cases hq : listar_favoritos_query_ok page limit = true
    · simp only [listar_favoritos, hq, if_true] at h
      have hitems := from_query_mapError_items _ _ _ _ _ h
      rw [hitems, List.pairwise_map]
      exact slice_sorted (fun f => f.id) db.favoritos _ _
    · simp only [listar_favoritos, hq, if_false, Bool.false_eq_true] at h
      cases h

/-- Closed witness for `listings_pagination_amended`: the users listing at
`page = 2`, `limit = 10` has nonnegative offset. -/
theorem listings_pagination_amended_witness :
    0 ≤ listing_offset 2 10 :=
  listings_pagination_amended.1 2 10 (by decide)

/-- Closed witness for `verificar_favorito_total` at a concrete store in
which user 1 has marked movie 2. -/
theorem verificar_favorito_total_witness :
    ∃ r, verificar_favorito
        { usuarios := [{ id := 1, nombre := "Ana", correo := "ana@x.com", fecha_registro := 0 }],
          peliculas := [], favoritos := [{ id := 7, id_usuario := 1, id_pelicula := 2, fecha_marcado := 3 }] }
        1 2 = .ok r
      ∧ (r.es_favorito = true ↔
          ∃ f ∈ [({ id := 7, id_usuario := 1, id_pelicula := 2, fecha_marcado := 3 } : Favorito)],
            f.id_usuario = 1 ∧ f.id_pelicula = 2)
      ∧ (r.es_favorito = true →
          ∃ f ∈ [({ id := 7, id_usuario := 1, id_pelicula := 2, fecha_marcado := 3 } : Favorito)],
            f.id_usuario = 1 ∧ f.id_pelicula = 2
              ∧ r.favorito_id = some f.id ∧ r.fecha_marcado = some f.fecha_marcado)
      ∧ (r.es_favorito = false → r.favorito_id = none ∧ r.fecha_marcado = none) :=
  verificar_favorito_total _ 1 2

end MovieApi
